import Mathlib

/-!
Shallow embedding of the budget-dashboard data pipeline (`src/app.py`).

Rows of the transaction table are modelled as records; the pandas
DataFrame operations used by the script (column-wise cleaning, boolean
filtering, groupby-sum, pivot, sort, head) are modelled as the
corresponding pure list operations.  Amounts are rationals; the month of
each row is the month number extracted from the parsed `Date` column,
`none` when the date failed to parse (pandas `NaT`).
-/

namespace Budget

/-! ### String helpers

The pandas string operations used in `load_data` (`str.strip`,
`str.replace` with an empty replacement, `str.contains(case=False)`,
`str.lower`) are modelled on the underlying character lists so that they
are kernel-computable. -/

/-- `str.strip`: remove leading and trailing whitespace. -/
def strTrim (s : String) : String :=
  ⟨((s.data.dropWhile Char.isWhitespace).reverse.dropWhile Char.isWhitespace).reverse⟩

/-- `str.replace(c, "", regex=False)` for a single-character pattern:
remove every occurrence of the character. -/
def removeChar (c : Char) (s : String) : String :=
  ⟨s.data.filter fun a => !(a == c)⟩

/-- `str.lower()`. -/
def strToLower (s : String) : String :=
  ⟨s.data.map Char.toLower⟩

/-- Substring test on character lists. -/
def containsSub (pat : List Char) : List Char → Bool
  | [] => pat.isEmpty
  | c :: t => pat.isPrefixOf (c :: t) || containsSub pat t

/-- `Series.str.contains(pat, case=False)`: case-insensitive substring test. -/
def strContainsCI (s pat : String) : Bool :=
  containsSub (strToLower pat).data (strToLower s).data

/-! ### Numeric parsing

`pd.to_numeric(..., errors="coerce")` on the already-stripped amount
strings: an optional sign, an integer part and an optional fractional
part separated by one dot.  Non-numeric strings coerce to `none`
(pandas `NaN`). -/

/-- Value of a digit character. -/
def digitVal (c : Char) : Nat := c.toNat - 48

/-- Parse a (possibly empty) list of digit characters as a natural number;
`none` when some character is not a digit. -/
def digitsVal (cs : List Char) : Option Nat :=
  if cs.all Char.isDigit then some (cs.foldl (fun n c => n * 10 + digitVal c) 0) else none

/-- Numeric coercion of a decimal string, `pd.to_numeric(errors="coerce")` style. -/
def parseNumber (s : String) : Option ℚ :=
  let cs := (strTrim s).data
  let neg := cs.head? = some '-'
  let cs1 := if neg then cs.tail else cs
  let sign : ℚ := if neg then -1 else 1
  match cs1.splitOn '.' with
  | [a] =>
      if a.isEmpty then none
      else (digitsVal a).map fun n => sign * (n : ℚ)
  | [a, b] =>
      if a.isEmpty && b.isEmpty then none
      else
        (digitsVal a).bind fun i =>
          (digitsVal b).map fun f => sign * ((i : ℚ) + (f : ℚ) / (10 : ℚ) ^ b.length)
  | _ => none

/-! ### Row cleaning (`load_data`, app.py lines 41-56) -/

/-- A raw transaction row as read from the CSV: all five canonical fields
as text, except that the `Date` column is represented by the month number
its parse yields (`none` for an unparseable date, pandas `NaT`). -/
structure RawRow where
  title : String
  category : String
  type : String
  amount : String
  month : Option Nat
  deriving Repr, DecidableEq

/-- A cleaned transaction row. -/
structure Row where
  title : String
  category : String
  type : String
  amount : ℚ
  month : Option Nat
  deriving Repr, DecidableEq

/-- app.py line 43: `df["Category"].astype(str).str.strip().replace("", "Uncategorized remembering")`. -/
def cleanCategory (s : String) : String :=
  if strTrim s = "" then "Uncategorized remembering" else strTrim s

/-- app.py lines 47-51: strip `","` then `"$"` from the amount text. -/
def stripMoney (s : String) : String :=
  removeChar '$' (removeChar ',' s)

/-- app.py line 52: `pd.to_numeric(..., errors="coerce").fillna(0)`. -/
def cleanAmount (s : String) : ℚ :=
  (parseNumber (stripMoney s)).getD 0

/-- Column-wise cleaning of one row (app.py lines 42-56). -/
def cleanRow (r : RawRow) : Row :=
  { title := strTrim r.title
    category := cleanCategory r.category
    type := strTrim r.type
    amount := cleanAmount r.amount
    month := r.month }

/-- app.py line 34. -/
def requiredCols : List String := ["Date", "Title", "Category", "Type", "Amount"]

/-- app.py lines 32-35: required columns that cannot be resolved after
header trimming, in the order of `required_cols`. -/
def missingCols (headers : List String) : List String :=
  requiredCols.filter fun c => !((headers.map strTrim).contains c)

/-- `load_data` (app.py lines 29-58): header check, then per-row cleaning.
`Except.error missing` models `st.error(...)` followed by `st.stop()`:
no cleaned record set is produced. -/
def load_data (headers : List String) (rows : List RawRow) : Except (List String) (List Row) :=
  if missingCols headers = [] then Except.ok (rows.map cleanRow) else Except.error (missingCols headers)

/-! ### Month order and filters (app.py lines 69-95) -/

/-- app.py lines 69-72. -/
def MONTH_ORDER : List String :=
  ["January", "February", "March", "April", "May", "June",
   "July", "August", "September", "October", "November", "December"]

/-- `dt.month_name()` for a month number. -/
def monthName (m : Nat) : String := (MONTH_ORDER.get? (m - 1)).getD ""

/-- app.py line 87: `df[df["Month"].isin(selected_months)]`; rows with an
unparseable date (`month = none`) are never selected. -/
def filterMonths (selected : List Nat) (rows : List Row) : List Row :=
  rows.filter fun r =>
    match r.month with
    | some m => selected.contains m
    | none => false

/-- app.py line 93. -/
def EXCLUDED_CATEGORIES : List String := ["Income", "Investment", "Investments"]

/-- app.py line 95: `df_filtered[~df_filtered["Category"].isin(EXCLUDED_CATEGORIES)]`. -/
def expense_df (dfFiltered : List Row) : List Row :=
  dfFiltered.filter fun r => !(EXCLUDED_CATEGORIES.contains r.category)

/-! ### Key metrics (app.py lines 102-113) -/

/-- Sum of the `Amount` column. -/
def sumAmount (rows : List Row) : ℚ := (rows.map Row.amount).sum

/-- app.py line 102. -/
def expected_expenses (expense : List Row) : ℚ :=
  sumAmount (expense.filter fun r => decide (r.type = "Expected"))

/-- app.py line 103. -/
def actual_expenses (expense : List Row) : ℚ :=
  sumAmount (expense.filter fun r => decide (r.type = "Actual"))

/-- app.py lines 107-110. -/
def income_actual (dfFiltered : List Row) : ℚ :=
  sumAmount (dfFiltered.filter fun r => decide (r.category = "Income" ∧ r.type = "Actual"))

/-! ### Groupby-sum

`df.groupby(key)["Amount"].sum()`: one output entry per distinct key,
carrying the sum of the amounts of the entries with that key. -/

/-- The distinct keys of a keyed amount list, in first-appearance order. -/
def groupKeys {α : Type} [DecidableEq α] (l : List (α × ℚ)) : List α :=
  (l.map Prod.fst).dedup

/-- Sum the amounts of every entry of `l` whose key is `k`. -/
def keySum {α : Type} [DecidableEq α] (l : List (α × ℚ)) (k : α) : ℚ :=
  ((l.filter fun p => decide (p.1 = k)).map Prod.snd).sum

/-- Groupby-sum over a given key list. -/
def groupSum {α : Type} [DecidableEq α] (keys : List α) (l : List (α × ℚ)) : List (α × ℚ) :=
  keys.map fun k => (k, keySum l k)

/-! ### Category summary and variance (app.py lines 128-134 and 204-211) -/

/-- app.py line 128: remove rows whose category mentions "Mortgage"
(case-insensitive) before the category summary. -/
def chart_df (expense : List Row) : List Row :=
  expense.filter fun r => !(strContainsCI r.category "Mortgage")

/-- app.py lines 130-134: `chart_df.groupby(["Category", "Type"])["Amount"].sum()`. -/
def summary_df (expense : List Row) : List ((String × String) × ℚ) :=
  let pairs := (chart_df expense).map fun r => ((r.category, r.type), r.amount)
  groupSum (groupKeys pairs) pairs

/-- The categories of the pivoted summary table (its index), in
first-appearance order. -/
def summaryCategories (s : List ((String × String) × ℚ)) : List String :=
  (s.map fun p => p.1.1).dedup

/-- One cell of `summary_df.pivot(index="Category", columns="Type")` with
`fillna(0)`: missing cells default to `0`. -/
def pivotCell (s : List ((String × String) × ℚ)) (c t : String) : ℚ :=
  ((s.filter fun p => decide (p.1 = (c, t))).map Prod.snd).sum

/-- app.py lines 204-211: pivot the summary and take
`Variance = Actual - Expected` per category. -/
def variance_df (expense : List Row) : List (String × ℚ) :=
  let s := summary_df expense
  (summaryCategories s).map fun c => (c, pivotCell s c "Actual" - pivotCell s c "Expected")

/-! ### Monthly trend (app.py lines 152-157) and the month-over-month
series of the insight payload (app.py lines 302-322) -/

/-- `(Month, Amount)` pairs of the Actual-type rows; rows whose date did
not parse (`month = none`) are dropped by the groupby, as pandas drops
`NaN` group keys. -/
def actualMonthPairs (expense : List Row) : List (Nat × ℚ) :=
  expense.filterMap fun r =>
    if r.type = "Actual" then r.month.map fun m => (m, r.amount) else none

/-- The distinct months of the Actual-type rows, sorted in calendar
order (the `Month` column is categorical with the Jan-Dec order, so
sorting by it is sorting by month number). -/
def sortedActualMonths (expense : List Row) : List Nat :=
  List.insertionSort (· ≤ ·) (groupKeys (actualMonthPairs expense))

/-- Monthly Actual sums in calendar order (app.py lines 305-312, and the
same computation at lines 152-156). -/
def monthlyActual (expense : List Row) : List (Nat × ℚ) :=
  groupSum (sortedActualMonths expense) (actualMonthPairs expense)

/-- app.py lines 152-157: the monthly spending trend, month names in
calendar order. -/
def monthly_trend (expense : List Row) : List (String × ℚ) :=
  (monthlyActual expense).map fun p => (monthName p.1, p.2)

/-- The `month_over_month` entry of the insight payload. -/
structure MoM where
  prev_month : String
  prev_amount : ℚ
  last_month : String
  last_amount : ℚ
  change : ℚ
  deriving Repr, DecidableEq

/-- app.py lines 302-322: `None` unless the calendar-ordered monthly
Actual series has at least two entries, else the comparison of its last
two entries (`monthly_actual.tail(2)`). -/
def month_over_month (expense : List Row) : Option MoM :=
  match (monthlyActual expense).reverse with
  | b :: a :: _ =>
      some { prev_month := monthName a.1, prev_amount := a.2,
             last_month := monthName b.1, last_amount := b.2,
             change := b.2 - a.2 }
  | _ => none

/-! ### Top-10 (app.py lines 174-183) -/

/-- Descending order on the summed amount; the sort key of
`sort_values("Amount", ascending=False)`. -/
def amtGE (a b : String × ℚ) : Prop := b.2 ≤ a.2

instance : DecidableRel amtGE := fun a b => inferInstanceAs (Decidable (b.2 ≤ a.2))

instance : IsTotal (String × ℚ) amtGE := ⟨fun a b => le_total b.2 a.2⟩

instance : IsTrans (String × ℚ) amtGE := ⟨fun _ _ _ h1 h2 => le_trans h2 h1⟩

/-- app.py lines 175-180: Actual-type rows whose category does not
mention "Mortgage" (case-insensitive), grouped by `Title` and summed.
The group keys come out sorted, as `groupby` sorts its keys. -/
def titleSums (expense : List Row) : List (String × ℚ) :=
  let base := expense.filter fun r =>
    decide (r.type = "Actual") && !(strContainsCI r.category "Mortgage")
  let pairs := base.map fun r => (r.title, r.amount)
  groupSum (List.insertionSort (· ≤ ·) (groupKeys pairs)) pairs

/-- app.py lines 174-183: sort the title sums by amount, descending
(stable), and keep the first 10. -/
def top10 (expense : List Row) : List (String × ℚ) :=
  (List.insertionSort amtGE (titleSums expense)).take 10

/-! ### Key-metric totals, twice (app.py lines 102-113 and 253-331) -/

/-- The five scalar totals shown by the dashboard. -/
structure Totals where
  expected_expenses : ℚ
  actual_expenses : ℚ
  income_actual : ℚ
  savings_actual : ℚ
  variance_expenses : ℚ
  deriving Repr, DecidableEq

/-- The key-metrics header (app.py lines 102-113): `variance_expenses` is
`Expenses PvA = actual - expected`, `savings_actual` is
`net_variance = income_actual - actual_expenses`. -/
def headerTotals (dfFiltered : List Row) : Totals :=
  { expected_expenses := expected_expenses (expense_df dfFiltered)
    actual_expenses := actual_expenses (expense_df dfFiltered)
    income_actual := income_actual dfFiltered
    savings_actual := income_actual dfFiltered - actual_expenses (expense_df dfFiltered)
    variance_expenses := actual_expenses (expense_df dfFiltered) - expected_expenses (expense_df dfFiltered) }

/-- The `totals` block of `build_insight_payload` (app.py lines 253-331),
recomputed from its two arguments exactly as the function body does. -/
def payloadTotals (dfFilteredLocal expenseLocal : List Row) : Totals :=
  let expectedExp := sumAmount (expenseLocal.filter fun r => decide (r.type = "Expected"))
  let actualExp := sumAmount (expenseLocal.filter fun r => decide (r.type = "Actual"))
  let incomeActualLocal :=
    sumAmount (dfFilteredLocal.filter fun r => decide (r.category = "Income" ∧ r.type = "Actual"))
  { expected_expenses := expectedExp
    actual_expenses := actualExp
    income_actual := incomeActualLocal
    savings_actual := incomeActualLocal - actualExp
    variance_expenses := actualExp - expectedExp }

/-! ### Lemmas about groupby-sum -/

theorem filter_key_of_not_mem {α : Type} [DecidableEq α] (l : List (α × ℚ)) (k : α)
    (h : k ∉ l.map Prod.fst) : l.filter (fun p => decide (p.1 = k)) = [] := by
  induction l with
  | nil => rfl
  | cons p t ih =>
      simp only [List.map_cons, List.mem_cons, not_or] at h
      have h1 : ¬ p.1 = k := fun hh => h.1 hh.symm
      simp [List.filter_cons, h1, ih h.2]

theorem keySum_of_not_mem {α : Type} [DecidableEq α] (l : List (α × ℚ)) (k : α)
    (h : k ∉ l.map Prod.fst) : keySum l k = 0 := by
  simp [keySum, filter_key_of_not_mem l k h]

theorem groupSum_filter {α : Type} [DecidableEq α] (keys : List α) (l : List (α × ℚ)) (k : α)
    (hnd : keys.Nodup) :
    (groupSum keys l).filter (fun p => decide (p.1 = k))
      = if k ∈ keys then [(k, keySum l k)] else [] := by
  induction keys with
  | nil => simp [groupSum]
  | cons a t ih =>
      obtain ⟨ha, hnd2⟩ := List.nodup_cons.mp hnd
      by_cases hak : a = k
      · subst hak
        have ht : (groupSum t l).filter (fun p => decide (p.1 = a)) = [] := by
          rw [ih hnd2]; simp [ha]
        simp [groupSum, List.filter_cons, ht]
        simpa [groupSum] using ht
      · simp only [groupSum, List.map_cons, List.filter_cons]
        have : ¬ ((a, keySum l a).1 = k) := hak
        simp only [this, decide_eq_true_eq, if_false, decide_False]
        rw [show (groupSum t l) = t.map fun k2 => (k2, keySum l k2) from rfl] at ih
        rw [ih hnd2]
        have hka : ¬ k = a := fun hh => hak hh.symm
        simp [List.mem_cons, hka]

theorem keySum_groupSum {α : Type} [DecidableEq α] (keys : List α) (l : List (α × ℚ)) (k : α)
    (hnd : keys.Nodup) (hcov : ∀ a ∈ l.map Prod.fst, a ∈ keys) :
    keySum (groupSum keys l) k = keySum l k := by
  unfold keySum
  rw [show (groupSum keys l).filter (fun p => decide (p.1 = k))
        = if k ∈ keys then [(k, keySum l k)] else [] from groupSum_filter keys l k hnd]
  by_cases hk : k ∈ keys
  · simp [hk, keySum]
  · have hnot : k ∉ l.map Prod.fst := fun h => hk (hcov k h)
    simp [hk, keySum, filter_key_of_not_mem l k hnot]

theorem mem_groupSum {α : Type} [DecidableEq α] {keys : List α} {l : List (α × ℚ)}
    {p : α × ℚ} (hp : p ∈ groupSum keys l) : p.1 ∈ keys ∧ p.2 = keySum l p.1 := by
  obtain ⟨k, hk, hek⟩ := List.mem_map.mp hp
  cases hek
  exact ⟨hk, rfl⟩

theorem keySum_map_rows {α : Type} [DecidableEq α] (f : Row → α) (rows : List Row) (k : α) :
    keySum (rows.map fun r => (f r, r.amount)) k
      = sumAmount (rows.filter fun r => decide (f r = k)) := by
  induction rows with
  | nil => rfl
  | cons r t ih =>
      by_cases h : f r = k
      · simp only [List.map_cons, keySum, List.filter_cons, h, decide_True,
          if_true, List.map_cons, List.sum_cons] at *
        simp [keySum, sumAmount] at ih ⊢
        rw [ih]
      · simp only [List.map_cons, keySum, List.filter_cons, h, decide_False, if_false] at *
        exact ih

/-! ### Lemmas about the monthly series -/

theorem keySum_actualMonthPairs (e : List Row) (m : Nat) :
    keySum (actualMonthPairs e) m
      = sumAmount (e.filter fun r => decide (r.type = "Actual" ∧ r.month = some m)) := by
  induction e with
  | nil => rfl
  | cons r t ih =>
      by_cases h1 : r.type = "Actual"
      · cases hm : r.month with
        | none =>
            have ha : actualMonthPairs (r :: t) = actualMonthPairs t := by
              simp [actualMonthPairs, List.filterMap_cons, h1, hm]
            have hb : (r :: t).filter (fun r => decide (r.type = "Actual" ∧ r.month = some m))
                = t.filter (fun r => decide (r.type = "Actual" ∧ r.month = some m)) := by
              rw [List.filter_cons]
              simp [hm]
            rw [ha, hb]
            exact ih
        | some m2 =>
            have ha : actualMonthPairs (r :: t) = (m2, r.amount) :: actualMonthPairs t := by
              simp [actualMonthPairs, List.filterMap_cons, h1, hm]
            by_cases h2 : m2 = m
            · subst h2
              have hb : (r :: t).filter (fun r => decide (r.type = "Actual" ∧ r.month = some m2))
                  = r :: t.filter (fun r => decide (r.type = "Actual" ∧ r.month = some m2)) := by
                rw [List.filter_cons]
                simp [h1, hm]
              rw [ha, hb]
              have hc : keySum ((m2, r.amount) :: actualMonthPairs t) m2
                  = r.amount + keySum (actualMonthPairs t) m2 := by
                simp [keySum, List.filter_cons]
              have hd : sumAmount (r :: t.filter
                    (fun r => decide (r.type = "Actual" ∧ r.month = some m2)))
                  = r.amount + sumAmount (t.filter
                    (fun r => decide (r.type = "Actual" ∧ r.month = some m2))) := by
                simp [sumAmount]
              rw [hc, hd, ih]
            · have hb : (r :: t).filter (fun r => decide (r.type = "Actual" ∧ r.month = some m))
                  = t.filter (fun r => decide (r.type = "Actual" ∧ r.month = some m)) := by
                rw [List.filter_cons]
                simp [hm, h2]
              have hc : keySum ((m2, r.amount) :: actualMonthPairs t) m
                  = keySum (actualMonthPairs t) m := by
                simp [keySum, List.filter_cons, h2]
              rw [ha, hb, hc]
              exact ih
      · have ha : actualMonthPairs (r :: t) = actualMonthPairs t := by
          simp [actualMonthPairs, List.filterMap_cons, h1]
        have hb : (r :: t).filter (fun r => decide (r.type = "Actual" ∧ r.month = some m))
            = t.filter (fun r => decide (r.type = "Actual" ∧ r.month = some m)) := by
          rw [List.filter_cons]
          simp [h1]
        rw [ha, hb]
        exact ih

theorem mem_actualMonths {e : List Row} {m : Nat} :
    m ∈ (actualMonthPairs e).map Prod.fst
      ↔ ∃ r ∈ e, r.type = "Actual" ∧ r.month = some m := by
  constructor
  · intro h
    obtain ⟨p, hp, hpm⟩ := List.mem_map.mp h
    obtain ⟨r, hr, hrp⟩ := List.mem_filterMap.mp hp
    by_cases h1 : r.type = "Actual"
    · simp only [actualMonthPairs, h1, if_true] at hrp
      obtain ⟨m2, hm2, hfm⟩ := Option.map_eq_some'.mp hrp
      refine ⟨r, hr, h1, ?_⟩
      rw [hm2]
      cases hfm
      cases hpm
      rfl
    · simp [actualMonthPairs, h1] at hrp
  · rintro ⟨r, hr, h1, hm⟩
    refine List.mem_map.mpr ⟨(m, r.amount), List.mem_filterMap.mpr ⟨r, hr, ?_⟩, rfl⟩
    simp [actualMonthPairs, h1, hm]

theorem nodup_sortedActualMonths (e : List Row) : (sortedActualMonths e).Nodup :=
  (List.perm_insertionSort _ _).nodup_iff.mpr (List.nodup_dedup _)

theorem sorted_sortedActualMonths (e : List Row) :
    List.Sorted (· ≤ ·) (sortedActualMonths e) :=
  List.sorted_insertionSort _ _

theorem mem_sortedActualMonths {e : List Row} {m : Nat} :
    m ∈ sortedActualMonths e ↔ ∃ r ∈ e, r.type = "Actual" ∧ r.month = some m := by
  rw [sortedActualMonths, (List.perm_insertionSort _ _).mem_iff, groupKeys,
    List.mem_dedup]
  exact mem_actualMonths

theorem coverage_sortedActualMonths (e : List Row) :
    ∀ a ∈ (actualMonthPairs e).map Prod.fst, a ∈ sortedActualMonths e := by
  intro a ha
  rw [sortedActualMonths, (List.perm_insertionSort _ _).mem_iff, groupKeys, List.mem_dedup]
  exact ha

theorem keySum_monthly (e : List Row) (m : Nat) :
    keySum (actualMonthPairs e) m
      = sumAmount (e.filter fun r => decide (r.type = "Actual" ∧ r.month = some m)) :=
  keySum_actualMonthPairs e m

/-! ### Lemmas about the pivoted summary -/

theorem pivotCell_summary (expense : List Row) (c t : String) :
    pivotCell (summary_df expense) c t
      = sumAmount ((chart_df expense).filter fun r => decide (r.category = c ∧ r.type = t)) := by
  have h1 : pivotCell (summary_df expense) c t
      = keySum (groupSum (groupKeys ((chart_df expense).map fun r => ((r.category, r.type), r.amount)))
          ((chart_df expense).map fun r => ((r.category, r.type), r.amount))) (c, t) := rfl
  rw [h1]
  have hnd : (groupKeys ((chart_df expense).map fun r => ((r.category, r.type), r.amount))).Nodup :=
    List.nodup_dedup _
  have hcov : ∀ a ∈ ((chart_df expense).map fun r => ((r.category, r.type), r.amount)).map Prod.fst,
      a ∈ groupKeys ((chart_df expense).map fun r => ((r.category, r.type), r.amount)) :=
    fun a ha => List.mem_dedup.mpr ha
  rw [keySum_groupSum _ _ _ hnd hcov]
  rw [keySum_map_rows (fun r => (r.category, r.type)) (chart_df expense) (c, t)]
  congr 1
  apply List.filter_congr
  intro r _
  rw [decide_eq_decide]
  exact Prod.mk.injEq r.category r.type c t ▸ Iff.rfl

theorem data_removeChar (c : Char) (s : String) :
    (removeChar c s).data = s.data.filter fun a => !(a == c) := rfl

/-! ### Concrete sample data used by witnesses and counterexamples -/

/-- A raw row whose `Amount` fails numeric coercion. -/
def sampleBadAmount : RawRow :=
  { title := "Gym", category := "Misc", type := "Actual", amount := "abc", month := some 1 }

/-- A filtered set with one income row and one expense row. -/
def sampleIncome : List Row :=
  [{ title := "Salary", category := "Income", type := "Actual", amount := 3000, month := some 1 },
   { title := "Food", category := "Groceries", type := "Actual", amount := 200, month := some 1 }]

/-- A filtered set with one category having both cells and one category
missing its Expected cell. -/
def sampleVariance : List Row :=
  [{ title := "a", category := "Groceries", type := "Actual", amount := 500, month := some 1 },
   { title := "b", category := "Groceries", type := "Expected", amount := 450, month := some 1 },
   { title := "c", category := "Fun", type := "Actual", amount := 120, month := some 1 }]

/-! ## The claims -/

/-- C1: after cleaning, `Category` is never empty — a whitespace-only
`Category` is replaced — but the sentinel the code substitutes is the
string `"Uncategorized remembering"` (app.py line 43), not the
`"Uncategorized"` label the spec names.  This evaluates the cleaning rule
at the failing input. -/
theorem C1_category_sentinel :
    cleanCategory "   " = "Uncategorized remembering" ∧
    cleanCategory "   " ≠ "Uncategorized" ∧
    cleanCategory "   " ≠ "" :=
  ⟨by decide, by decide, by decide⟩

/-- C2 counterexample: a row whose `Amount` string fails numeric coercion
is NOT dropped from the cleaned record set: `load_data` keeps the row and
fills its amount with `0` (app.py line 52, `fillna(0)`). -/
theorem C2_counterexample :
    load_data ["Date", "Title", "Category", "Type", "Amount"] [sampleBadAmount]
      = Except.ok [{ title := "Gym", category := "Misc", type := "Actual",
                     amount := 0, month := some 1 }] := rfl

/-- C2 (amended): cleaning never drops a row; a row whose `Amount` fails
numeric coercion is kept with its amount set to `0`, so its amount is a
well-defined number and it contributes `0` to every sum. -/
theorem C2_zero_fill (rows : List RawRow) :
    (rows.map cleanRow).length = rows.length ∧
    ∀ r ∈ rows, parseNumber (stripMoney r.amount) = none → (cleanRow r).amount = 0 := by
  refine ⟨List.length_map _ _, fun r _ h => ?_⟩
  simp [cleanRow, cleanAmount, h]

/-- Witness for C2: the amended statement evaluated on the concrete bad row. -/
theorem C2_zero_fill_witness :
    ([sampleBadAmount].map cleanRow).length = [sampleBadAmount].length ∧
    (cleanRow sampleBadAmount).amount = 0 := by
  have h := C2_zero_fill [sampleBadAmount]
  exact ⟨h.1, h.2 sampleBadAmount (by decide) (by decide)⟩

/-- C8: the amount cleaner first removes every `','` and `'$'` from the
amount string and then parses; whenever the stripped string parses to a
number, the cleaned amount is exactly that number. -/
theorem C8_amount_parse (s : String) (q : ℚ)
    (h : parseNumber (stripMoney s) = some q) :
    cleanAmount s = q ∧ ',' ∉ (stripMoney s).data ∧ '$' ∉ (stripMoney s).data := by
  refine ⟨by simp [cleanAmount, h], ?_, ?_⟩ <;>
    simp [stripMoney, data_removeChar, List.mem_filter]

/-- Witness for C8: `"$1,234.50"` cleans to the number `1234.50`. -/
theorem C8_amount_parse_witness :
    cleanAmount "$1,234.50" = (1234.5 : ℚ) ∧ stripMoney "$1,234.50" = "1234.50" := by
  have hp : parseNumber (stripMoney "$1,234.50")
      = some ((1 : ℚ) * ((1234 : ℚ) + (50 : ℚ) / (10 : ℚ) ^ (2 : Nat))) := rfl
  refine ⟨?_, by decide⟩
  rw [(C8_amount_parse _ _ hp).1]
  norm_num

/-- C9: if any canonical column is unresolved after header trimming,
`load_data` stops with the list of exactly the unresolved fields and
produces no cleaned record set (so no aggregate can be built from it);
otherwise it proceeds with every required column resolved. -/
theorem C9_missing_columns (headers : List String) (rows : List RawRow) :
    (missingCols headers = [] → load_data headers rows = Except.ok (rows.map cleanRow)) ∧
    (missingCols headers ≠ [] → load_data headers rows = Except.error (missingCols headers)) ∧
    (∀ c, c ∈ missingCols headers ↔ c ∈ requiredCols ∧ c ∉ headers.map strTrim) := by
  refine ⟨fun h => by simp [load_data, h], fun h => by simp [load_data, h], fun c => ?_⟩
  simp [missingCols, List.mem_filter]

/-- Witness for C9: with the `Amount` header missing, loading halts with
exactly `["Amount"]`. -/
theorem C9_missing_columns_witness :
    load_data ["Date ", " Title", "Category", "Type"] [sampleBadAmount]
        = Except.error ["Amount"] ∧
    ("Amount" ∈ missingCols ["Date ", " Title", "Category", "Type"] ↔
      "Amount" ∈ requiredCols ∧ "Amount" ∉ (["Date ", " Title", "Category", "Type"].map strTrim)) ∧
    load_data requiredCols [sampleBadAmount]
        = Except.ok ([sampleBadAmount].map cleanRow) := by
  have h := C9_missing_columns ["Date ", " Title", "Category", "Type"] [sampleBadAmount]
  have h2 := C9_missing_columns requiredCols [sampleBadAmount]
  refine ⟨?_, h.2.2 "Amount", h2.1 (by decide)⟩
  rw [h.2.1 (by decide)]
  rw [show missingCols ["Date ", " Title", "Category", "Type"] = ["Amount"] from by decide]

/-- C10: the five totals of the insight payload, recomputed inside
`build_insight_payload` from the same filtered frames, coincide with the
five key metrics of the dashboard header. -/
theorem C10_totals_agree (dfFiltered : List Row) :
    payloadTotals dfFiltered (expense_df dfFiltered) = headerTotals dfFiltered := rfl

/-! ### C3: income rows and the spending aggregates -/

theorem mem_expense_not_income {d : List Row} {r : Row} (h : r ∈ expense_df d) :
    r.category ≠ "Income" := by
  have h2 := (List.mem_filter.mp h).2
  intro hc
  rw [hc] at h2
  exact absurd h2 (by decide)

theorem summary_key_from_row {e : List Row} {p : (String × String) × ℚ}
    (hp : p ∈ summary_df e) : ∃ r ∈ chart_df e, r.category = p.1.1 ∧ r.type = p.1.2 := by
  have hp2 : p ∈ groupSum (groupKeys ((chart_df e).map fun r => ((r.category, r.type), r.amount)))
      ((chart_df e).map fun r => ((r.category, r.type), r.amount)) := hp
  obtain ⟨hkey, _⟩ := mem_groupSum hp2
  have h3 : p.1 ∈ ((chart_df e).map fun r => ((r.category, r.type), r.amount)).map Prod.fst :=
    List.mem_dedup.mp hkey
  rw [List.map_map] at h3
  obtain ⟨r, hr, hrp⟩ := List.mem_map.mp h3
  have h4 : (r.category, r.type) = p.1 := hrp
  exact ⟨r, hr, by rw [← h4], by rw [← h4]⟩

/-- C3: the spending aggregates (category summary, top-10) are computed
from `expense_df`, which excludes income-tagged rows — dropping income
rows from the filtered set beforehand changes neither aggregate, and no
summary key carries the `Income` category — while the `Income Actual` key
metric is the plain sum over the FULL filtered set of the rows with
`Category = "Income"` and `Type = "Actual"`. -/
theorem C3_income_policy (d : List Row) :
    summary_df (expense_df d)
        = summary_df (expense_df (d.filter fun r => !(decide (r.category = "Income")))) ∧
    top10 (expense_df d)
        = top10 (expense_df (d.filter fun r => !(decide (r.category = "Income")))) ∧
    (∀ p ∈ summary_df (expense_df d), p.1.1 ≠ "Income") ∧
    income_actual d
        = sumAmount (d.filter fun r => decide (r.category = "Income" ∧ r.type = "Actual")) := by
  have he : expense_df (d.filter fun r => !(decide (r.category = "Income"))) = expense_df d := by
    unfold expense_df
    rw [List.filter_filter]
    apply List.filter_congr
    intro r _
    by_cases hIn : r.category = "Income"
    · rw [hIn]
      decide
    · simp [hIn]
  refine ⟨by rw [he], by rw [he], fun p hp => ?_, rfl⟩
  obtain ⟨r, hr, hcat, _⟩ := summary_key_from_row hp
  have hre : r ∈ expense_df d := (List.mem_filter.mp hr).1
  rw [← hcat]
  exact mem_expense_not_income hre

/-- Witness for C3: on a two-row filtered set with one income row, the
summary ignores the income row while the income metric picks it up. -/
theorem C3_income_policy_witness :
    summary_df (expense_df sampleIncome)
        = summary_df (expense_df (sampleIncome.filter fun r => !(decide (r.category = "Income")))) ∧
    income_actual sampleIncome
        = sumAmount (sampleIncome.filter fun r => decide (r.category = "Income" ∧ r.type = "Actual")) ∧
    income_actual sampleIncome = 3000 ∧
    ((("Groceries", "Actual"), (200:ℚ)) ∈ summary_df (expense_df sampleIncome) ∧
      ("Groceries" : String) ≠ "Income") := by
  have h := C3_income_policy sampleIncome
  have hk : keySum ((chart_df (expense_df sampleIncome)).map
        fun r => ((r.category, r.type), r.amount)) ("Groceries", "Actual") = 200 := by
    rw [keySum_map_rows (fun r => (r.category, r.type))]
    rw [show (chart_df (expense_df sampleIncome)).filter
          (fun r => decide ((r.category, r.type) = ("Groceries", "Actual")))
        = [{ title := "Food", category := "Groceries", type := "Actual",
             amount := 200, month := some 1 }] from by decide]
    simp [sumAmount]
  have hsd : summary_df (expense_df sampleIncome)
      = [(("Groceries", "Actual"), keySum ((chart_df (expense_df sampleIncome)).map
          fun r => ((r.category, r.type), r.amount)) ("Groceries", "Actual"))] := rfl
  have hmem : ((("Groceries", "Actual"), (200:ℚ))) ∈ summary_df (expense_df sampleIncome) := by
    rw [hsd, hk]
    exact List.mem_cons_self _ _
  refine ⟨h.1, h.2.2.2, ?_, hmem, h.2.2.1 _ hmem⟩
  rw [h.2.2.2]
  rw [show sampleIncome.filter (fun r => decide (r.category = "Income" ∧ r.type = "Actual"))
      = [{ title := "Salary", category := "Income", type := "Actual", amount := 3000, month := some 1 }]
    from by decide]
  simp [sumAmount]

/-! ### C7: variance by pivot -/

/-- C7: every entry of the variance table equals the Actual sum minus the
Expected sum of its category over the (Mortgage-filtered) summary input,
with a missing cell contributing `0`: the two sums below are plain row
sums, `0` when no matching row exists. -/
theorem C7_variance (expense : List Row) :
    ∀ p ∈ variance_df expense,
      p.2 = sumAmount ((chart_df expense).filter fun r => decide (r.category = p.1 ∧ r.type = "Actual"))
          - sumAmount ((chart_df expense).filter fun r => decide (r.category = p.1 ∧ r.type = "Expected")) := by
  intro p hp
  have hp2 : p ∈ (summaryCategories (summary_df expense)).map
      (fun c => (c, pivotCell (summary_df expense) c "Actual"
          - pivotCell (summary_df expense) c "Expected")) := hp
  obtain ⟨c, _, hcp⟩ := List.mem_map.mp hp2
  cases hcp
  rw [show ((c, pivotCell (summary_df expense) c "Actual"
      - pivotCell (summary_df expense) c "Expected") : String × ℚ).2
    = pivotCell (summary_df expense) c "Actual" - pivotCell (summary_df expense) c "Expected" from rfl]
  rw [pivotCell_summary, pivotCell_summary]

/-- Witness for C7: Actual=500, Expected=450 gives variance exactly 50;
the category with no Expected row gets variance equal to its Actual sum. -/
theorem C7_variance_witness :
    ("Groceries", (50:ℚ)) ∈ variance_df sampleVariance ∧
    (50:ℚ) = sumAmount ((chart_df sampleVariance).filter fun r =>
          decide (r.category = "Groceries" ∧ r.type = "Actual"))
        - sumAmount ((chart_df sampleVariance).filter fun r =>
          decide (r.category = "Groceries" ∧ r.type = "Expected")) ∧
    ("Fun", (120:ℚ)) ∈ variance_df sampleVariance := by
  have hv : variance_df sampleVariance
      = [("Groceries", pivotCell (summary_df sampleVariance) "Groceries" "Actual"
            - pivotCell (summary_df sampleVariance) "Groceries" "Expected"),
         ("Fun", pivotCell (summary_df sampleVariance) "Fun" "Actual"
            - pivotCell (summary_df sampleVariance) "Fun" "Expected")] := by
    have h0 : variance_df sampleVariance
        = (summaryCategories (summary_df sampleVariance)).map
          (fun c => (c, pivotCell (summary_df sampleVariance) c "Actual"
              - pivotCell (summary_df sampleVariance) c "Expected")) := rfl
    rw [h0, show summaryCategories (summary_df sampleVariance) = ["Groceries", "Fun"] from by decide]
    rfl
  have hga : pivotCell (summary_df sampleVariance) "Groceries" "Actual" = 500 := by
    rw [pivotCell_summary]
    rw [show (chart_df sampleVariance).filter (fun r =>
          decide (r.category = "Groceries" ∧ r.type = "Actual"))
        = [{ title := "a", category := "Groceries", type := "Actual",
             amount := 500, month := some 1 }] from by decide]
    simp [sumAmount]
  have hge : pivotCell (summary_df sampleVariance) "Groceries" "Expected" = 450 := by
    rw [pivotCell_summary]
    rw [show (chart_df sampleVariance).filter (fun r =>
          decide (r.category = "Groceries" ∧ r.type = "Expected"))
        = [{ title := "b", category := "Groceries", type := "Expected",
             amount := 450, month := some 1 }] from by decide]
    simp [sumAmount]
  have hfa : pivotCell (summary_df sampleVariance) "Fun" "Actual" = 120 := by
    rw [pivotCell_summary]
    rw [show (chart_df sampleVariance).filter (fun r =>
          decide (r.category = "Fun" ∧ r.type = "Actual"))
        = [{ title := "c", category := "Fun", type := "Actual",
             amount := 120, month := some 1 }] from by decide]
    simp [sumAmount]
  have hfe : pivotCell (summary_df sampleVariance) "Fun" "Expected" = 0 := by
    rw [pivotCell_summary]
    rw [show (chart_df sampleVariance).filter (fun r =>
          decide (r.category = "Fun" ∧ r.type = "Expected")) = [] from by decide]
    simp [sumAmount]
  have hmem : ("Groceries", (50:ℚ)) ∈ variance_df sampleVariance := by
    rw [hv, hga, hge]
    norm_num
  refine ⟨hmem, ?_, ?_⟩
  · exact C7_variance sampleVariance ("Groceries", (50:ℚ)) hmem
  · rw [hv, hfa, hfe]
    norm_num

/-! ### C6: monthly trend in calendar order -/

/-- A filtered set whose Actual rows sit in March and January. -/
def sampleTwoMonths : List Row :=
  [{ title := "m", category := "Stuff", type := "Actual", amount := 900, month := some 3 },
   { title := "j", category := "Stuff", type := "Actual", amount := 1000, month := some 1 }]

/-- C6: the monthly trend is the list of distinct months of the
Actual-type rows, emitted in calendar (Jan-Dec) order — the sorted month
numbers — each with the sum of the Actual amounts of that month; with
months {March, January} present the emitted names are
["January", "March"]. -/
theorem C6_monthly_trend (expense : List Row) :
    monthly_trend expense = (sortedActualMonths expense).map (fun m =>
        (monthName m,
         sumAmount (expense.filter fun r => decide (r.type = "Actual" ∧ r.month = some m)))) ∧
    List.Sorted (· ≤ ·) (sortedActualMonths expense) ∧
    (∀ m, m ∈ sortedActualMonths expense ↔ ∃ r ∈ expense, r.type = "Actual" ∧ r.month = some m) ∧
    (monthly_trend sampleTwoMonths).map Prod.fst = ["January", "March"] := by
  refine ⟨?_, sorted_sortedActualMonths expense, fun m => mem_sortedActualMonths, by decide⟩
  have h0 : monthly_trend expense = (sortedActualMonths expense).map
      (fun m => (monthName m, keySum (actualMonthPairs expense) m)) := by
    have h1 : monthlyActual expense = (sortedActualMonths expense).map
        (fun k => (k, keySum (actualMonthPairs expense) k)) := rfl
    rw [monthly_trend, h1, List.map_map]
    rfl
  rw [h0]
  apply List.map_congr_left
  intro m _
  rw [keySum_actualMonthPairs]

/-! ### C4: month-over-month -/

/-- A filtered set with Actual sums Jan=1000, Feb=1200, Mar=900. -/
def sampleThreeMonths : List Row :=
  [{ title := "x", category := "Stuff", type := "Actual", amount := 1000, month := some 1 },
   { title := "y", category := "Stuff", type := "Actual", amount := 1200, month := some 2 },
   { title := "z", category := "Stuff", type := "Actual", amount := 900, month := some 3 }]

/-- C4: `month_over_month` is `none` exactly when fewer than two distinct
months appear in the Actual monthly series, and otherwise it compares the
two chronologically last months present: every other month present is at
most the previous one, the reported amounts are the months' Actual sums,
and the change is last minus previous. -/
theorem C4_month_over_month (expense : List Row) :
    (month_over_month expense = none ↔ (sortedActualMonths expense).length < 2) ∧
    (∀ mom, month_over_month expense = some mom →
      ∃ a b : ℕ, a < b
        ∧ (∃ r ∈ expense, r.type = "Actual" ∧ r.month = some a)
        ∧ (∃ r ∈ expense, r.type = "Actual" ∧ r.month = some b)
        ∧ (∀ m, (∃ r ∈ expense, r.type = "Actual" ∧ r.month = some m) → m ≤ b ∧ (m = b ∨ m ≤ a))
        ∧ mom.prev_month = monthName a ∧ mom.last_month = monthName b
        ∧ mom.prev_amount
            = sumAmount (expense.filter fun r => decide (r.type = "Actual" ∧ r.month = some a))
        ∧ mom.last_amount
            = sumAmount (expense.filter fun r => decide (r.type = "Actual" ∧ r.month = some b))
        ∧ mom.change = mom.last_amount - mom.prev_amount) := by
  have hlen : (monthlyActual expense).length = (sortedActualMonths expense).length :=
    List.length_map _ _
  rcases hrev : (monthlyActual expense).reverse with _ | ⟨b, tb⟩
  · have h0 : (monthlyActual expense).length = 0 := by
      rw [← List.length_reverse, hrev]
      rfl
    have hm : month_over_month expense = none := by
      unfold month_over_month
      rw [hrev]
    refine ⟨⟨fun _ => by omega, fun _ => hm⟩, fun mom hmom => ?_⟩
    rw [hm] at hmom
    exact absurd hmom (by simp)
  rcases tb with _ | ⟨a, t⟩
  · have h0 : (monthlyActual expense).length = 1 := by
      rw [← List.length_reverse, hrev]
      rfl
    have hm : month_over_month expense = none := by
      unfold month_over_month
      rw [hrev]
    refine ⟨⟨fun _ => by omega, fun _ => hm⟩, fun mom hmom => ?_⟩
    rw [hm] at hmom
    exact absurd hmom (by simp)
  · have h0 : 2 ≤ (monthlyActual expense).length := by
      rw [← List.length_reverse, hrev]
      simp
    have hm : month_over_month expense
        = some { prev_month := monthName a.1, prev_amount := a.2,
                 last_month := monthName b.1, last_amount := b.2,
                 change := b.2 - a.2 } := by
      unfold month_over_month
      rw [hrev]
    refine ⟨⟨fun h => by rw [hm] at h; exact absurd h (by simp), fun h => by omega⟩, ?_⟩
    intro mom hmom
    rw [hm] at hmom
    have heq := Option.some.inj hmom
    subst heq
    have hbmem : b ∈ monthlyActual expense := by
      rw [← List.mem_reverse, hrev]
      exact List.mem_cons_self _ _
    have hamem : a ∈ monthlyActual expense := by
      rw [← List.mem_reverse, hrev]
      exact List.mem_cons_of_mem _ (List.mem_cons_self _ _)
    have hb := mem_groupSum
      (show b ∈ groupSum (sortedActualMonths expense) (actualMonthPairs expense) from hbmem)
    have ha := mem_groupSum
      (show a ∈ groupSum (sortedActualMonths expense) (actualMonthPairs expense) from hamem)
    have hmap : (sortedActualMonths expense).reverse.map
        (fun k => (k, keySum (actualMonthPairs expense) k)) = b :: a :: t := by
      rw [List.map_reverse]
      exact hrev
    rcases hmsr : (sortedActualMonths expense).reverse with _ | ⟨k1, _ | ⟨k2, rest⟩⟩
    · rw [hmsr] at hmap
      exact absurd hmap (by simp)
    · rw [hmsr] at hmap
      simp at hmap
    · rw [hmsr] at hmap
      simp only [List.map_cons, List.cons.injEq] at hmap
      obtain ⟨hbk, hak, _⟩ := hmap
      have hsorted := sorted_sortedActualMonths expense
      have hnd := nodup_sortedActualMonths expense
      have hrevsorted : List.Pairwise (fun x y => y ≤ x) (sortedActualMonths expense).reverse := by
        rw [List.pairwise_reverse]
        exact hsorted
      have hrevnd : (sortedActualMonths expense).reverse.Nodup := List.nodup_reverse.mpr hnd
      rw [hmsr] at hrevsorted hrevnd
      obtain ⟨hk1, hrest⟩ := List.pairwise_cons.mp hrevsorted
      obtain ⟨hk2, _⟩ := List.pairwise_cons.mp hrest
      obtain ⟨hk1n, _⟩ := List.nodup_cons.mp hrevnd
      have hb1 : b.1 = k1 := by rw [← hbk]
      have ha1 : a.1 = k2 := by rw [← hak]
      have hak2 : k2 < k1 := by
        have h1 : k2 ≤ k1 := hk1 k2 (List.mem_cons_self _ _)
        have h2 : k1 ≠ k2 := fun h => hk1n (h ▸ List.mem_cons_self _ _)
        omega
      refine ⟨k2, k1, hak2, ?_, ?_, ?_, ?_, ?_, ?_, ?_, ?_⟩
      · apply mem_sortedActualMonths.mp
        rw [← List.mem_reverse, hmsr]
        exact List.mem_cons_of_mem _ (List.mem_cons_self _ _)
      · apply mem_sortedActualMonths.mp
        rw [← List.mem_reverse, hmsr]
        exact List.mem_cons_self _ _
      · intro m hmth
        have hmm : m ∈ (sortedActualMonths expense).reverse := by
          rw [List.mem_reverse]
          exact mem_sortedActualMonths.mpr hmth
        rw [hmsr] at hmm
        rcases List.mem_cons.mp hmm with h | hmm2
        · subst h
          exact ⟨le_refl _, Or.inl rfl⟩
        · have hle : m ≤ k2 := by
            rcases List.mem_cons.mp hmm2 with h | h3
            · subst h
              exact le_refl _
            · exact hk2 m h3
          exact ⟨le_trans hle (le_of_lt hak2), Or.inr hle⟩
      · show monthName a.1 = monthName k2
        rw [ha1]
      · show monthName b.1 = monthName k1
        rw [hb1]
      · show a.2 = sumAmount (expense.filter fun r => decide (r.type = "Actual" ∧ r.month = some k2))
        rw [ha.2, ha1, keySum_actualMonthPairs]
      · show b.2 = sumAmount (expense.filter fun r => decide (r.type = "Actual" ∧ r.month = some k1))
        rw [hb.2, hb1, keySum_actualMonthPairs]
      · rfl

/-- Witness for C4: with monthly Actual sums Jan=1000, Feb=1200, Mar=900
the reported comparison is (February, 1200) to (March, 900) with change
-300 — not January versus February. -/
theorem C4_month_over_month_witness :
    month_over_month sampleThreeMonths
        = some { prev_month := "February", prev_amount := 1200,
                 last_month := "March", last_amount := 900, change := -300 } ∧
    (∃ a b : ℕ, a < b
      ∧ (∃ r ∈ sampleThreeMonths, r.type = "Actual" ∧ r.month = some a)
      ∧ (∃ r ∈ sampleThreeMonths, r.type = "Actual" ∧ r.month = some b)
      ∧ (∀ m, (∃ r ∈ sampleThreeMonths, r.type = "Actual" ∧ r.month = some m)
            → m ≤ b ∧ (m = b ∨ m ≤ a))
      ∧ "February" = monthName a ∧ "March" = monthName b
      ∧ (1200:ℚ) = sumAmount (sampleThreeMonths.filter fun r =>
            decide (r.type = "Actual" ∧ r.month = some a))
      ∧ (900:ℚ) = sumAmount (sampleThreeMonths.filter fun r =>
            decide (r.type = "Actual" ∧ r.month = some b))
      ∧ (-300:ℚ) = (900:ℚ) - 1200) := by
  have h1 : sortedActualMonths sampleThreeMonths = [1, 2, 3] := by decide
  have h2 : monthlyActual sampleThreeMonths
      = [(1, keySum (actualMonthPairs sampleThreeMonths) 1),
         (2, keySum (actualMonthPairs sampleThreeMonths) 2),
         (3, keySum (actualMonthPairs sampleThreeMonths) 3)] := by
    have h0 : monthlyActual sampleThreeMonths = (sortedActualMonths sampleThreeMonths).map
        (fun k => (k, keySum (actualMonthPairs sampleThreeMonths) k)) := rfl
    rw [h0, h1]
    rfl
  have hk1 : keySum (actualMonthPairs sampleThreeMonths) 1 = 1000 := by
    rw [keySum_actualMonthPairs]
    rw [show sampleThreeMonths.filter (fun r => decide (r.type = "Actual" ∧ r.month = some 1))
        = [{ title := "x", category := "Stuff", type := "Actual",
             amount := 1000, month := some 1 }] from by decide]
    simp [sumAmount]
  have hk2 : keySum (actualMonthPairs sampleThreeMonths) 2 = 1200 := by
    rw [keySum_actualMonthPairs]
    rw [show sampleThreeMonths.filter (fun r => decide (r.type = "Actual" ∧ r.month = some 2))
        = [{ title := "y", category := "Stuff", type := "Actual",
             amount := 1200, month := some 2 }] from by decide]
    simp [sumAmount]
  have hk3 : keySum (actualMonthPairs sampleThreeMonths) 3 = 900 := by
    rw [keySum_actualMonthPairs]
    rw [show sampleThreeMonths.filter (fun r => decide (r.type = "Actual" ∧ r.month = some 3))
        = [{ title := "z", category := "Stuff", type := "Actual",
             amount := 900, month := some 3 }] from by decide]
    simp [sumAmount]
  have h3 : month_over_month sampleThreeMonths
      = some { prev_month := monthName 2, prev_amount := 1200,
               last_month := monthName 3, last_amount := 900, change := (900:ℚ) - 1200 } := by
    unfold month_over_month
    rw [h2, hk1, hk2, hk3]
    rfl
  have hmom : month_over_month sampleThreeMonths
      = some { prev_month := "February", prev_amount := 1200,
               last_month := "March", last_amount := 900, change := -300 } := by
    rw [h3, show monthName 2 = "February" from by decide,
      show monthName 3 = "March" from by decide]
    norm_num
  exact ⟨hmom, (C4_month_over_month sampleThreeMonths).2 _ hmom⟩

/-! ### C5: top-10 spending titles -/

theorem mem_titleSums {e : List Row} {p : String × ℚ} (hp : p ∈ titleSums e) :
    p.2 = sumAmount ((e.filter fun r =>
        decide (r.type = "Actual") && !(strContainsCI r.category "Mortgage")).filter
          fun r => decide (r.title = p.1)) ∧
    ∃ r ∈ e, r.title = p.1 ∧ r.type = "Actual" ∧ strContainsCI r.category "Mortgage" = false := by
  have hp2 : p ∈ groupSum
      (List.insertionSort (· ≤ ·) (groupKeys ((e.filter fun r =>
        decide (r.type = "Actual") && !(strContainsCI r.category "Mortgage")).map
          fun r => (r.title, r.amount))))
      ((e.filter fun r =>
        decide (r.type = "Actual") && !(strContainsCI r.category "Mortgage")).map
          fun r => (r.title, r.amount)) := hp
  obtain ⟨hkey, hval⟩ := mem_groupSum hp2
  constructor
  · rw [hval]
    exact keySum_map_rows Row.title _ p.1
  · have h3 : p.1 ∈ ((e.filter fun r =>
        decide (r.type = "Actual") && !(strContainsCI r.category "Mortgage")).map
          fun r => (r.title, r.amount)).map Prod.fst :=
      List.mem_dedup.mp ((List.perm_insertionSort (· ≤ ·) _).mem_iff.mp hkey)
    rw [List.map_map] at h3
    obtain ⟨r, hr, hrt⟩ := List.mem_map.mp h3
    obtain ⟨hre, hcond⟩ := List.mem_filter.mp hr
    rw [Bool.and_eq_true] at hcond
    refine ⟨r, hre, hrt, of_decide_eq_true hcond.1, ?_⟩
    simpa using hcond.2

/-- C5 (amended): the top-10 table groups the Actual rows whose CATEGORY
does not mention "Mortgage" (case-insensitive) by title, sums, sorts
descending and keeps at most 10 entries; each entry carries its title's
sum, comes from a retained row, and every grouped title left out has a
sum no larger than any entry kept. -/
theorem C5_top10 (expense : List Row) :
    (top10 expense).length ≤ 10 ∧
    List.Sorted amtGE (top10 expense) ∧
    (∀ p ∈ top10 expense,
        p.2 = sumAmount ((expense.filter fun r =>
            decide (r.type = "Actual") && !(strContainsCI r.category "Mortgage")).filter
              fun r => decide (r.title = p.1)) ∧
        ∃ r ∈ expense, r.title = p.1 ∧ r.type = "Actual"
          ∧ strContainsCI r.category "Mortgage" = false) ∧
    (∀ p ∈ titleSums expense, p ∉ top10 expense → ∀ q ∈ top10 expense, p.2 ≤ q.2) := by
  refine ⟨?_, ?_, ?_, ?_⟩
  · rw [top10, List.length_take]
    exact min_le_left _ _
  · exact List.Pairwise.sublist (List.take_sublist _ _)
      (List.sorted_insertionSort amtGE (titleSums expense))
  · intro p hp
    have hp2 : p ∈ titleSums expense :=
      (List.perm_insertionSort amtGE _).mem_iff.mp (List.take_subset _ _ hp)
    exact mem_titleSums hp2
  · intro p hpts hnot q hq
    have hL : p ∈ List.insertionSort amtGE (titleSums expense) :=
      (List.perm_insertionSort amtGE _).mem_iff.mpr hpts
    have hsplit : List.insertionSort amtGE (titleSums expense)
        = (List.insertionSort amtGE (titleSums expense)).take 10
          ++ (List.insertionSort amtGE (titleSums expense)).drop 10 :=
      (List.take_append_drop _ _).symm
    have hsorted := List.sorted_insertionSort amtGE (titleSums expense)
    rw [hsplit] at hL hsorted
    have hcross := (List.pairwise_append.mp hsorted).2.2
    rcases List.mem_append.mp hL with h | h
    · exact absurd h hnot
    · exact hcross q hq p h

/-- A row whose TITLE mentions Mortgage while its category does not. -/
def sampleMortgageTitle : List Row :=
  [{ title := "Mortgage Payment", category := "Housing", type := "Actual",
     amount := 2000, month := some 1 }]

/-- C5 counterexample: the exclusion keyword is applied to the CATEGORY,
not the title — a title matching "Mortgage" case-insensitively still
appears in the top-10 when its category does not match. -/
theorem C5_counterexample :
    (top10 sampleMortgageTitle).map Prod.fst = ["Mortgage Payment"] ∧
    strContainsCI "Mortgage Payment" "Mortgage" = true ∧
    strContainsCI "Housing" "Mortgage" = false :=
  ⟨rfl, by decide, by decide⟩

/-- Witness for C5: the single retained row's title heads the table with
its summed amount. -/
theorem C5_top10_witness :
    ("Mortgage Payment", (2000:ℚ)) ∈ top10 sampleMortgageTitle ∧
    (2000:ℚ) = sumAmount ((sampleMortgageTitle.filter fun r =>
        decide (r.type = "Actual") && !(strContainsCI r.category "Mortgage")).filter
          fun r => decide (r.title = "Mortgage Payment")) := by
  have h2 : keySum ((sampleMortgageTitle.filter fun r =>
        decide (r.type = "Actual") && !(strContainsCI r.category "Mortgage")).map
          fun r => (r.title, r.amount)) "Mortgage Payment" = 2000 := by
    rw [keySum_map_rows Row.title]
    rw [show (sampleMortgageTitle.filter fun r =>
          decide (r.type = "Actual") && !(strContainsCI r.category "Mortgage")).filter
            (fun r => decide (r.title = "Mortgage Payment"))
        = sampleMortgageTitle from by decide]
    simp [sumAmount, sampleMortgageTitle]
  have h1 : top10 sampleMortgageTitle
      = [("Mortgage Payment",
          keySum ((sampleMortgageTitle.filter fun r =>
            decide (r.type = "Actual") && !(strContainsCI r.category "Mortgage")).map
              fun r => (r.title, r.amount)) "Mortgage Payment")] := rfl
  have hmem : ("Mortgage Payment", (2000:ℚ)) ∈ top10 sampleMortgageTitle := by
    rw [h1, h2]
    exact List.mem_cons_self _ _
  exact ⟨hmem, ((C5_top10 sampleMortgageTitle).2.2.1 _ hmem).1⟩

end Budget
